import Mathlib

/-!
Verification development for the AgeGenderDetector repository
(file full/models/train_full.py).

The embedding below translates the three functions of the source file —
train, test and predict_age_gender — into Lean definitions.

Conventions of the embedding:
* Python float metric values that are only stored and compared are modelled
  as rationals (ℚ); quantities built from transcendental functions
  (sigmoid, logarithm, square root) are modelled as reals (ℝ).
* The persisted configuration dictionary dict_model is modelled as a
  structure DictModel whose metric keys are Option ℚ (a key absent from the
  Python dict is none); all other keys (hyperparameters and the like) are
  kept abstract in the field rest, which no training code ever touches.
* Side effects are made explicit: the checkpoints written by train are
  collected in a list of (filename, record) pairs, the losses passed to
  backward are collected in a list, and a raised Python exception becomes
  the Except.error case.
* External collaborators (torch optimizers, schedulers, data loaders,
  tensorboard) are out of scope per the specification; the data they feed
  into the modelled logic (per-epoch metric values, per-batch data) enters
  as parameters.
-/

/-- The five per-epoch scalar metrics computed by train just before the
scheduler/checkpoint phase (epoch means of the accumulated values). -/
structure EpochMetrics where
  train_loss : ℚ
  val_mse_age : ℚ
  train_acc : ℚ
  val_acc : ℚ
  val_mcc : ℚ

/-- The persisted configuration record dict_model.  The five metric keys and
the epoch key may be absent (none); every other entry of the Python dict
(hyperparameters, transform identifiers, ...) is abstracted into rest. -/
structure DictModel where
  rest : List (String × String)
  epoch : Option Nat
  train_loss : Option ℚ
  val_mse_age : Option ℚ
  train_acc : Option ℚ
  val_acc : Option ℚ
  val_mcc : Option ℚ

/-- Embedding of train_full.py lines 201-223: select the scheduler metric for
the given scheduler_mode and compute is_better by comparing against the value
currently stored in dict_model (false when no value is stored).  Returns the
pair (met, is_better); met is none for an unrecognized mode (line 223). -/
def metAndBetter (scheduler_mode : String) (dict_model : DictModel)
    (ms : EpochMetrics) : Option ℚ × Bool :=
  if scheduler_mode = "min_loss" then
    (some ms.train_loss,
      match dict_model.train_loss with
      | some best_met => decide (ms.train_loss ≤ best_met)
      | none => false)
  else if scheduler_mode = "min_mse" then
    (some ms.val_mse_age,
      match dict_model.val_mse_age with
      | some best_met => decide (ms.val_mse_age ≤ best_met)
      | none => false)
  else if scheduler_mode = "max_acc" then
    (some ms.train_acc,
      match dict_model.train_acc with
      | some best_met => decide (best_met ≤ ms.train_acc)
      | none => false)
  else if scheduler_mode = "max_val_acc" then
    (some ms.val_acc,
      match dict_model.val_acc with
      | some best_met => decide (best_met ≤ ms.val_acc)
      | none => false)
  else if scheduler_mode = "max_val_mcc" then
    (some ms.val_mcc,
      match dict_model.val_mcc with
      | some best_met => decide (best_met ≤ ms.val_mcc)
      | none => false)
  else (none, false)

/-- Embedding of train_full.py lines 247-253: write the epoch number and the
five metric values into a record (the record d of the source, which is either
the canonical dict_model or a copy of it). -/
def updateMetrics (d : DictModel) (epoch : Nat) (ms : EpochMetrics) :
    DictModel :=
  { d with
    epoch := some (epoch + 1)
    train_loss := some ms.train_loss
    val_mse_age := some ms.val_mse_age
    train_acc := some ms.train_acc
    val_acc := some ms.val_acc
    val_mcc := some ms.val_mcc }

/-- Embedding of train_full.py lines 242-260 (the checkpoint phase at the end
of one epoch).  Returns the canonical record after the phase together with
the checkpoint written by save_model, if any, as a (filename, record) pair.
In the source, d aliases dict_model when is_better and is a copy otherwise,
so the canonical record is mutated exactly when is_better. -/
def savePhase (dict_model : DictModel) (name_path : String)
    (epoch steps_save : Nat) (is_better : Bool) (ms : EpochMetrics) :
    DictModel × Option (String × DictModel) :=
  if epoch % steps_save = steps_save - 1 ∨ is_better = true then
    let d := updateMetrics dict_model epoch ms
    let name2 := if is_better then name_path
      else name_path ++ "_" ++ toString (epoch + 1)
    (if is_better then d else dict_model, some (name2, d))
  else
    (dict_model, none)

/-- Observable state accumulated by the training loop: the canonical record,
the checkpoints written so far (in order) and the number of training batches
processed so far. -/
structure TrainState where
  dict : DictModel
  saves : List (String × DictModel)
  batches : Nat

/-- One iteration of the epoch loop of train (lines 149-260), at the level of
the modelled effects: compute is_better from the epoch metrics, run the
checkpoint phase, and account for the training batches processed during the
epoch.  The numeric epoch metrics themselves are produced by external
collaborators and enter through the parameter metrics. -/
def epochStep (scheduler_mode name_path : String)
    (steps_save batches_per_epoch : Nat) (metrics : Nat → EpochMetrics)
    (st : TrainState) (epoch : Nat) : TrainState :=
  let ms := metrics epoch
  let is_better := (metAndBetter scheduler_mode st.dict ms).2
  let r := savePhase st.dict name_path epoch steps_save is_better ms
  ⟨r.1, st.saves ++ r.2.toList, st.batches + batches_per_epoch⟩

/-- Recognized optimizer names (train_full.py lines 131-138). -/
def validOptimizerName (s : String) : Bool :=
  s = "sgd" || s = "adam" || s = "adamw"

/-- Recognized scheduler modes (train_full.py lines 140-145). -/
def validSchedulerMode (s : String) : Bool :=
  s = "min_loss" || s = "min_mse" || s = "max_acc" || s = "max_val_acc"
    || s = "max_val_mcc"

/-- Embedding of the control flow of train (train_full.py lines 17-260): the
optimizer selection (lines 131-138) and the scheduler selection (lines
140-145) each raise Exception("Optimizer not configured") — the source uses
that same message for both — for an unrecognized name, before the epoch loop
runs; otherwise the epoch loop executes and its observable effects are
returned.  Batch processing and checkpoint writing exist only inside the
returned TrainState, so an error return carries no partial effect. -/
def train (optimizer_name scheduler_mode : String)
    (n_epochs steps_save batches_per_epoch : Nat) (dict_model : DictModel)
    (name_path : String) (metrics : Nat → EpochMetrics) :
    Except String TrainState :=
  if optimizer_name = "sgd" ∨ optimizer_name = "adam"
      ∨ optimizer_name = "adamw" then
    if scheduler_mode = "min_loss" ∨ scheduler_mode = "min_mse"
        ∨ scheduler_mode = "max_acc" ∨ scheduler_mode = "max_val_acc"
        ∨ scheduler_mode = "max_val_mcc" then
      Except.ok ((List.range n_epochs).foldl
        (epochStep scheduler_mode name_path steps_save batches_per_epoch
          metrics)
        ⟨dict_model, [], 0⟩)
    else Except.error "Optimizer not configured"
  else Except.error "Optimizer not configured"

/-- Modelled from the spec: the class ConfusionMatrix lives in
full/models/utils.py, which is not under src/.  Per the spec it is an
accumulator that is "mutated by adding predicted/true label pairs", whose
derived metrics are pure functions of the accumulated data.  It is modelled
as the sequence of (prediction, label) pairs added to it; the derived
metrics (global accuracy, Matthews correlation, ...) enter the theorems as
abstract pure functions of this data. -/
structure ConfusionMatrix (α : Type) where
  name : String
  pairs : List (α × α)

/-- Modelled from the spec: ConfusionMatrix.add(preds, labels) records the
batch of predicted/true label pairs. -/
def ConfusionMatrix.add {α : Type} (cm : ConfusionMatrix α)
    (preds labels : List α) : ConfusionMatrix α :=
  ⟨cm.name, cm.pairs ++ preds.zip labels⟩

/-- One batch yielded by a data loader: images with their age and gender
labels (train_full.py line 159 unpacks each batch as img, age, gender). -/
structure TrainBatch (ι : Type) where
  img : List ι
  age : List ℝ
  gender : List ℝ

/-- Logistic sigmoid, the semantics of torch.sigmoid and the activation
inside torch.nn.BCEWithLogitsLoss. -/
noncomputable def sigmoid (x : ℝ) : ℝ := 1 / (1 + Real.exp (-x))

/-- Semantics of torch.nn.BCEWithLogitsLoss with default mean reduction
(the loss_gender of train_full.py line 115): mean over the batch of the
negative log-likelihood of the label under the sigmoid of the logit. -/
noncomputable def bceWithLogitsLoss (input target : List ℝ) : ℝ :=
  (((input.zip target).map (fun p =>
      -(p.2 * Real.log (sigmoid p.1)
        + (1 - p.2) * Real.log (1 - sigmoid p.1)))).sum)
    / ((input.zip target).length : ℝ)

/-- Semantics of torch.nn.MSELoss with default mean reduction (the loss_age
of train_full.py line 116): mean squared difference over the batch. -/
noncomputable def mseLoss (input target : List ℝ) : ℝ :=
  (((input.zip target).map (fun p => (p.1 - p.2) ^ 2)).sum)
    / ((input.zip target).length : ℝ)

/-- Per-epoch accumulators of the training batch loop (train_full.py lines
152-178): the three loss lists, the training confusion matrix, and the
sequence of loss values passed to backward, in order. -/
structure TrainEpochAcc where
  train_loss : List ℝ
  train_loss_gender : List ℝ
  train_loss_age : List ℝ
  train_cm : ConfusionMatrix ℝ
  backward_calls : List ℝ

/-- Embedding of one iteration of the training batch loop (train_full.py
lines 159-178): forward pass, combined loss, backward, accumulation of the
loss components and confusion-matrix update with (pred[:, 0] > 0).float().
The model is a per-image function to the two-column output
(gender logit, age prediction); the optimizer step only mutates external
optimizer/model state and is otherwise unobservable here. -/
noncomputable def trainBatchStep {ι : Type} (model : ι → ℝ × ℝ)
    (loss_age_weight : ℝ) (acc : TrainEpochAcc) (b : TrainBatch ι) :
    TrainEpochAcc :=
  let pred := b.img.map model
  let loss_val_gender := bceWithLogitsLoss (pred.map Prod.fst) b.gender
  let loss_val_age := mseLoss (pred.map Prod.snd) b.age
  let loss_val := loss_val_gender + loss_age_weight * loss_val_age
  ⟨acc.train_loss ++ [loss_val],
   acc.train_loss_gender ++ [loss_val_gender],
   acc.train_loss_age ++ [loss_val_age],
   acc.train_cm.add
     ((pred.map Prod.fst).map (fun x => if 0 < x then (1 : ℝ) else 0))
     b.gender,
   acc.backward_calls ++ [loss_val]⟩

/-- Embedding of the whole training batch loop of one epoch (train_full.py
lines 152-178), starting from empty accumulators and the fresh confusion
matrix ConfusionMatrix(size=2, name='train') of line 155. -/
noncomputable def trainEpochPhase {ι : Type} (model : ι → ℝ × ℝ)
    (loss_age_weight : ℝ) (loader_train : List (TrainBatch ι)) :
    TrainEpochAcc :=
  loader_train.foldl (trainBatchStep model loss_age_weight)
    ⟨[], [], [], ⟨"train", []⟩, []⟩

/-- Embedding of the per-batch body of predict_age_gender (train_full.py
lines 472-485) applied to one slice of images: forward pass, sigmoid on the
gender column, and optional thresholding at 0.5 when probabilities are not
requested. -/
noncomputable def predictBatch {α : Type} (model : α → ℝ × ℝ)
    (return_pr : Bool) (images : List α) : List (ℝ × ℝ) :=
  let pred := images.map model
  let pred := pred.map (fun r => (sigmoid r.1, r.2))
  if !return_pr then
    pred.map (fun r => (if (0.5 : ℝ) < r.1 then (1 : ℝ) else 0, r.2))
  else pred

/-- Batch start offsets of predict_age_gender (train_full.py line 471):
Python range(0, n - bs + 1, bs), i.e. the multiples of bs below
n - bs + 1.  The element count of range(0, stop, step) for positive step is
the rounded-up quotient stop / step. -/
def batchStarts (n bs : Nat) : List Nat :=
  (List.range ((n - bs + 1 + (bs - 1)) / bs)).map (fun i => i * bs)

/-- Embedding of predict_age_gender (train_full.py lines 437-491).  The
effective batch size is shrunk to the input length when fewer images than
batch_size are supplied (lines 462-463); a zero effective batch size makes
the Python range stride zero, raising ValueError (modelled as the error
case); otherwise the batches are processed, concatenated, and the age
column is replaced by res[:, 1].square().sqrt() (line 490).  Image loading
and resizing are external collaborators, so an image is any value the model
consumes. -/
noncomputable def predict_age_gender {α : Type} (model : α → ℝ × ℝ)
    (list_imgs : List α) (return_pr : Bool) (batch_size : Nat) :
    Except String (List (ℝ × ℝ)) :=
  let bs := if list_imgs.length < batch_size then list_imgs.length
    else batch_size
  if bs = 0 then Except.error "range() arg 3 must not be zero"
  else
    Except.ok
      ((((batchStarts list_imgs.length bs).map
          (fun k => predictBatch model return_pr
            ((list_imgs.drop k).take bs))).flatten).map
        (fun r => (r.1, Real.sqrt (r.2 ^ 2))))

/-- Embedding of numpy.mean on a list of rationals. -/
def npMean (l : List ℚ) : ℚ := l.sum / (l.length : ℚ)

/-- Checkpoint record as seen by test: the twelve aggregated metric keys
written by dict_model.update(dict_result) (train_full.py lines 403-423),
each possibly absent before the update, plus all other entries of the
loaded record abstracted into rest. -/
structure TestDict where
  rest : List (String × String)
  train_mae : Option ℚ
  val_mae : Option ℚ
  test_mae : Option ℚ
  train_mse : Option ℚ
  val_mse : Option ℚ
  test_mse : Option ℚ
  train_mcc : Option ℚ
  val_mcc : Option ℚ
  test_mcc : Option ℚ
  train_acc : Option ℚ
  val_acc : Option ℚ
  test_acc : Option ℚ

/-- Outcome of one pass of test over one data split (train_full.py lines
363-389): the per-batch mean_squared_error and mean_absolute_error values
appended inside the split loop, and the confusion matrix accumulated over
the split during this run. -/
structure SplitRunData where
  mse_batches : List ℚ
  mae_batches : List ℚ
  cm : ConfusionMatrix ℚ

/-- Outcome of one run of test over the three splits. -/
structure RunData where
  train : SplitRunData
  val : SplitRunData
  tst : SplitRunData

/-- One checkpoint found under the save directory: its loaded record and,
for each run index, the data the model/loader collaborators produce during
that repetition (the model forward passes and batch iteration themselves
are external). -/
structure Checkpoint where
  dict : TestDict
  runData : Nat → RunData

/-- Result bundle appended to list_all for one checkpoint (train_full.py
lines 427-432): the updated record and the per-run confusion matrices of
the three splits. -/
structure ResultBundle where
  dict : TestDict
  train_cm : List (ConfusionMatrix ℚ)
  val_cm : List (ConfusionMatrix ℚ)
  test_cm : List (ConfusionMatrix ℚ)

/-- Embedding of the per-checkpoint body of test (train_full.py lines
342-432): for k in range(n_runs) collect the per-run mean MSE/MAE of each
split and the per-run confusion matrices, then aggregate every metric with
np.mean across the runs and merge the result into the record.  The
confusion-matrix metrics matthews_corrcoef and global_accuracy live in
full/models/utils.py (not under src/) and are passed as abstract pure
functions mcc and acc. -/
def testCheckpoint (mcc acc : ConfusionMatrix ℚ → ℚ) (n_runs : Nat)
    (cp : Checkpoint) : ResultBundle :=
  let runs := (List.range n_runs).map cp.runData
  let train_mse := runs.map (fun r => npMean r.train.mse_batches)
  let train_mae := runs.map (fun r => npMean r.train.mae_batches)
  let train_cm := runs.map (fun r => r.train.cm)
  let val_mse := runs.map (fun r => npMean r.val.mse_batches)
  let val_mae := runs.map (fun r => npMean r.val.mae_batches)
  let val_cm := runs.map (fun r => r.val.cm)
  let test_mse := runs.map (fun r => npMean r.tst.mse_batches)
  let test_mae := runs.map (fun r => npMean r.tst.mae_batches)
  let test_cm := runs.map (fun r => r.tst.cm)
  { dict :=
      { cp.dict with
        train_mae := some (npMean train_mae)
        val_mae := some (npMean val_mae)
        test_mae := some (npMean test_mae)
        train_mse := some (npMean train_mse)
        val_mse := some (npMean val_mse)
        test_mse := some (npMean test_mse)
        train_mcc := some (npMean (train_cm.map mcc))
        val_mcc := some (npMean (val_cm.map mcc))
        test_mcc := some (npMean (test_cm.map mcc))
        train_acc := some (npMean (train_cm.map acc))
        val_acc := some (npMean (val_cm.map acc))
        test_acc := some (npMean (test_cm.map acc)) }
    train_cm := train_cm
    val_cm := val_cm
    test_cm := test_cm }

/-- Embedding of test (train_full.py lines 278-434): process every
checkpoint found under the save directory in order and return the list of
result bundles. -/
def test (mcc acc : ConfusionMatrix ℚ → ℚ) (n_runs : Nat)
    (checkpoints : List Checkpoint) : List ResultBundle :=
  checkpoints.map (testCheckpoint mcc acc n_runs)

/-! ## Helper lemmas -/

/-- Appending an underscore and a suffix always changes a string. -/
theorem stringAppendNe (s t : String) : s ++ "_" ++ t ≠ s := by
  intro h
  have hl := congrArg String.length h
  have hu : ("_" : String).length = 1 := rfl
  rw [String.length_append, String.length_append, hu] at hl
  omega

/-- The logistic sigmoid is nonnegative. -/
theorem sigmoid_nonneg (x : ℝ) : 0 ≤ sigmoid x := by
  unfold sigmoid
  positivity

/-- The logistic sigmoid is at most one. -/
theorem sigmoid_le_one (x : ℝ) : sigmoid x ≤ 1 := by
  unfold sigmoid
  rw [div_le_one (by positivity)]
  have := Real.exp_pos (-x)
  linarith

/-! ## Claims -/

/-- Claim C2: in train, for every epoch and every scheduler_mode, is_better
is false when the configuration record stores no prior value for the
selected metric, and otherwise is_better compares the current metric with
the stored best: at most for the minimized modes min_loss and min_mse, at
least for the maximized modes max_acc, max_val_acc and max_val_mcc. -/
theorem isBetterMatchesMode (d : DictModel) (ms : EpochMetrics) (best : ℚ) :
    (metAndBetter "min_loss" { d with train_loss := none } ms).2 = false ∧
    (metAndBetter "min_mse" { d with val_mse_age := none } ms).2 = false ∧
    (metAndBetter "max_acc" { d with train_acc := none } ms).2 = false ∧
    (metAndBetter "max_val_acc" { d with val_acc := none } ms).2 = false ∧
    (metAndBetter "max_val_mcc" { d with val_mcc := none } ms).2 = false ∧
    (metAndBetter "min_loss" { d with train_loss := some best } ms).2 =
      decide (ms.train_loss ≤ best) ∧
    (metAndBetter "min_mse" { d with val_mse_age := some best } ms).2 =
      decide (ms.val_mse_age ≤ best) ∧
    (metAndBetter "max_acc" { d with train_acc := some best } ms).2 =
      decide (best ≤ ms.train_acc) ∧
    (metAndBetter "max_val_acc" { d with val_acc := some best } ms).2 =
      decide (best ≤ ms.val_acc) ∧
    (metAndBetter "max_val_mcc" { d with val_mcc := some best } ms).2 =
      decide (best ≤ ms.val_mcc) :=
  ⟨rfl, rfl, rfl, rfl, rfl, rfl, rfl, rfl, rfl, rfl⟩

/-- Claim C3: in train, a checkpoint is persisted at the end of epoch index
epoch iff epoch mod steps_save equals steps_save - 1 or is_better holds;
an improving save uses the canonical name, and a periodic non-improving
save uses the canonical name extended with the epoch number epoch + 1,
which is distinct from the canonical name. -/
theorem checkpointSaveRule (d : DictModel) (name_path : String)
    (epoch steps_save : Nat) (is_better : Bool) (ms : EpochMetrics)
    (_hss : 1 ≤ steps_save) :
    ((savePhase d name_path epoch steps_save is_better ms).2 ≠ none ↔
      (epoch % steps_save = steps_save - 1 ∨ is_better = true)) ∧
    (is_better = true →
      (savePhase d name_path epoch steps_save is_better ms).2 =
        some (name_path, updateMetrics d epoch ms)) ∧
    (is_better = false → epoch % steps_save = steps_save - 1 →
      (savePhase d name_path epoch steps_save is_better ms).2 =
        some (name_path ++ "_" ++ toString (epoch + 1),
          updateMetrics d epoch ms) ∧
      name_path ++ "_" ++ toString (epoch + 1) ≠ name_path) := by
  refine ⟨?_, ?_, ?_⟩
  · unfold savePhase
    split
    · next h => simp [h]
    · next h => simp [h]
  · intro hib
    subst hib
    simp [savePhase]
  · intro hib hcond
    subst hib
    exact ⟨by simp [savePhase, hcond], stringAppendNe _ _⟩

/-- Claim C3 witness: with steps_save = 1 and is_better = false at epoch 0,
the periodic save exists and carries the epoch-numbered, non-canonical
name. -/
theorem checkpointSaveRuleWitness :
    (savePhase ⟨[], none, none, none, none, none, none⟩ "m" 0 1 false
        ⟨0, 0, 0, 0, 0⟩).2 =
      some ("m" ++ "_" ++ toString (0 + 1),
        updateMetrics ⟨[], none, none, none, none, none, none⟩ 0
          ⟨0, 0, 0, 0, 0⟩) ∧
    "m" ++ "_" ++ toString (0 + 1) ≠ "m" :=
  (checkpointSaveRule ⟨[], none, none, none, none, none, none⟩ "m" 0 1 false
    ⟨0, 0, 0, 0, 0⟩ (by decide)).2.2 rfl (by decide)

/-- Claim C8: in train, a periodic non-improving save writes the epoch
number and the five metrics into a copy, leaving the canonical record
unchanged; only an improving save mutates the canonical record, and even
then only its epoch and metric entries, never the remaining entries. -/
theorem checkpointFrameRule (d : DictModel) (name_path : String)
    (epoch steps_save : Nat) (is_better : Bool) (ms : EpochMetrics)
    (_hss : 1 ≤ steps_save) :
    ((savePhase d name_path epoch steps_save is_better ms).1.rest =
      d.rest) ∧
    (is_better = false →
      (savePhase d name_path epoch steps_save is_better ms).1 = d) ∧
    (is_better = true →
      (savePhase d name_path epoch steps_save is_better ms).1 =
        updateMetrics d epoch ms ∧
      (updateMetrics d epoch ms).rest = d.rest) ∧
    (is_better = false → epoch % steps_save = steps_save - 1 →
      (savePhase d name_path epoch steps_save is_better ms).2.map
        Prod.snd = some (updateMetrics d epoch ms)) := by
  refine ⟨?_, ?_, ?_, ?_⟩
  · unfold savePhase
    split
    · cases is_better <;> simp [updateMetrics]
    · rfl
  · intro hib
    subst hib
    unfold savePhase
    split <;> simp
  · intro hib
    subst hib
    exact ⟨by simp [savePhase], rfl⟩
  · intro hib hcond
    subst hib
    simp [savePhase, hcond]

/-- Claim C8 witness: an improving save at epoch 0 replaces the canonical
record by the metric-updated record and leaves its other entries intact. -/
theorem checkpointFrameRuleWitness :
    (savePhase ⟨[("k", "v")], none, none, none, none, none, none⟩ "m" 0 1
        true ⟨0, 0, 0, 0, 0⟩).1 =
      updateMetrics ⟨[("k", "v")], none, none, none, none, none, none⟩ 0
        ⟨0, 0, 0, 0, 0⟩ ∧
    (updateMetrics ⟨[("k", "v")], none, none, none, none, none, none⟩ 0
        ⟨0, 0, 0, 0, 0⟩).rest =
      (⟨[("k", "v")], none, none, none, none, none, none⟩ : DictModel).rest :=
  (checkpointFrameRule ⟨[("k", "v")], none, none, none, none, none, none⟩
    "m" 0 1 true ⟨0, 0, 0, 0, 0⟩ (by decide)).2.2.1 rfl

/-- Claim C4: calling train with an optimizer_name outside sgd/adam/adamw or
a scheduler_mode outside the five recognized modes yields the fatal error
"Optimizer not configured" (the source raises this message in both cases)
before the epoch loop runs, so no training batch is processed and no
checkpoint is written. -/
theorem trainRejectsInvalidConfig (optimizer_name scheduler_mode : String)
    (n_epochs steps_save batches_per_epoch : Nat) (dict_model : DictModel)
    (name_path : String) (metrics : Nat → EpochMetrics)
    (h : validOptimizerName optimizer_name = false ∨
      validSchedulerMode scheduler_mode = false) :
    train optimizer_name scheduler_mode n_epochs steps_save
      batches_per_epoch dict_model name_path metrics =
      Except.error "Optimizer not configured" := by
  unfold train
  rcases h with h | h
  · have h1 : ¬(optimizer_name = "sgd" ∨ optimizer_name = "adam"
        ∨ optimizer_name = "adamw") := by
      simp [validOptimizerName] at h
      tauto
    rw [if_neg h1]
  · have h2 : ¬(scheduler_mode = "min_loss" ∨ scheduler_mode = "min_mse"
        ∨ scheduler_mode = "max_acc" ∨ scheduler_mode = "max_val_acc"
        ∨ scheduler_mode = "max_val_mcc") := by
      simp [validSchedulerMode] at h
      tauto
    by_cases h1 : (optimizer_name = "sgd" ∨ optimizer_name = "adam"
      ∨ optimizer_name = "adamw")
    · rw [if_pos h1, if_neg h2]
    · rw [if_neg h1]

/-- Claim C4 witness: the unsupported optimizer name rmsprop is rejected
with the configuration error. -/
theorem trainRejectsInvalidConfigWitness :
    validOptimizerName "rmsprop" = false ∧
    train "rmsprop" "min_mse" 3 1 2
        ⟨[], none, none, none, none, none, none⟩ "m" (fun _ => ⟨0, 0, 0, 0, 0⟩) =
      Except.error "Optimizer not configured" :=
  ⟨by decide, trainRejectsInvalidConfig "rmsprop" "min_mse" 3 1 2
    ⟨[], none, none, none, none, none, none⟩ "m" (fun _ => ⟨0, 0, 0, 0, 0⟩)
    (Or.inl (by decide))⟩

/-- Claim C10: predict_age_gender on an empty list of image paths shrinks
the batch size to zero and the batch loop construction fails with the
zero-stride range error, so the empty list never yields a result. -/
theorem predictEmptyRaises {α : Type} (model : α → ℝ × ℝ)
    (return_pr : Bool) (batch_size : Nat) :
    predict_age_gender model ([] : List α) return_pr batch_size =
      Except.error "range() arg 3 must not be zero" := by
  unfold predict_age_gender
  cases batch_size <;> simp

/-- Claim C1, failing input: three images with batch_size 2 produce only 2
prediction rows, because the batch loop drops the trailing partial batch,
while the claim (and the function docstring) promise one row per image. -/
theorem predictDropsTrailingBatch :
    (predict_age_gender (fun _ : Unit => ((0 : ℝ), 0)) [(), (), ()] true
        2).map List.length = Except.ok 2 ∧ (2 : Nat) ≠ 3 :=
  ⟨rfl, by decide⟩

/-- Folding the training batch step appends, per batch in order, the
combined loss to the backward trace and the thresholded gender
predictions to the confusion matrix. -/
theorem trainEpochFold {ι : Type} (model : ι → ℝ × ℝ) (w : ℝ)
    (loader : List (TrainBatch ι)) (acc : TrainEpochAcc) :
    (loader.foldl (trainBatchStep model w) acc).backward_calls =
      acc.backward_calls ++ loader.map (fun b =>
        bceWithLogitsLoss ((b.img.map model).map Prod.fst) b.gender
          + w * mseLoss ((b.img.map model).map Prod.snd) b.age) ∧
    (loader.foldl (trainBatchStep model w) acc).train_cm.pairs =
      acc.train_cm.pairs ++ (loader.map (fun b =>
        (((b.img.map model).map Prod.fst).map
          (fun x => if 0 < x then (1 : ℝ) else 0)).zip b.gender)).flatten := by
  induction loader generalizing acc with
  | nil => simp
  | cons b bs ih =>
    obtain ⟨ih1, ih2⟩ := ih (trainBatchStep model w acc b)
    constructor
    · simp only [List.foldl_cons, List.map_cons, ih1]
      simp [trainBatchStep]
    · simp only [List.foldl_cons, List.map_cons, List.flatten_cons, ih2]
      simp [trainBatchStep, ConfusionMatrix.add]

/-- Claim C7: for every training batch in train, the loss passed to
backward equals the binary-cross-entropy-with-logits of the gender logits
(output column 0) against the gender labels plus loss_age_weight times the
mean-squared-error of the age predictions (output column 1) against the
age labels, and the training confusion matrix receives exactly the
thresholded predictions logit > 0 paired with the gender labels. -/
theorem trainLossComposition {ι : Type} (model : ι → ℝ × ℝ) (w : ℝ)
    (loader : List (TrainBatch ι)) :
    (trainEpochPhase model w loader).backward_calls =
      loader.map (fun b =>
        bceWithLogitsLoss ((b.img.map model).map Prod.fst) b.gender
          + w * mseLoss ((b.img.map model).map Prod.snd) b.age) ∧
    (trainEpochPhase model w loader).train_cm.pairs =
      (loader.map (fun b =>
        (((b.img.map model).map Prod.fst).map
          (fun x => if 0 < x then (1 : ℝ) else 0)).zip b.gender)).flatten := by
  have h := trainEpochFold model w loader ⟨[], [], [], ⟨"train", []⟩, []⟩
  simpa [trainEpochPhase] using h

/-- Every gender entry produced by one predictor batch is a sigmoid value
when probabilities are requested, and a 0/1 label otherwise. -/
theorem predictBatch_fst {α : Type} (model : α → ℝ × ℝ)
    (return_pr : Bool) (images : List α) :
    ∀ r ∈ predictBatch model return_pr images,
      (return_pr = true → ∃ x, r.1 = sigmoid x) ∧
      (return_pr = false → r.1 = 0 ∨ r.1 = 1) := by
  intro r hr
  unfold predictBatch at hr
  cases return_pr with
  | true =>
    have hr' : r ∈ (images.map model).map (fun p => (sigmoid p.1, p.2)) :=
      hr
    rw [List.mem_map] at hr'
    obtain ⟨p, _, hpr⟩ := hr'
    subst hpr
    exact ⟨fun _ => ⟨p.1, rfl⟩, fun hf => (nomatch hf)⟩
  | false =>
    have hr' : r ∈ ((images.map model).map
        (fun p => (sigmoid p.1, p.2))).map
        (fun p => ((if (0.5 : ℝ) < p.1 then (1 : ℝ) else 0), p.2)) := hr
    rw [List.mem_map] at hr'
    obtain ⟨p, _, hpr⟩ := hr'
    subst hpr
    refine ⟨fun hf => (nomatch hf), fun _ => ?_⟩
    by_cases hc : (0.5 : ℝ) < p.1 <;> simp [hc]

/-- Claim C5: every value in the age column of a tensor returned by
predict_age_gender is nonnegative, for every model output, because each
raw age x is mapped to the square root of its square. -/
theorem predictAgeNonneg {α : Type} (model : α → ℝ × ℝ)
    (list_imgs : List α) (return_pr : Bool) (batch_size : Nat)
    (res : List (ℝ × ℝ))
    (h : predict_age_gender model list_imgs return_pr batch_size =
      Except.ok res) :
    ∀ r ∈ res, 0 ≤ r.2 := by
  simp only [predict_age_gender] at h
  set bs := if list_imgs.length < batch_size then list_imgs.length
    else batch_size with hbs
  split at h
  · cases h
  · injection h with h
    subst h
    intro r hr
    rw [List.mem_map] at hr
    obtain ⟨r0, _, rfl⟩ := hr
    exact Real.sqrt_nonneg _

/-- Claim C5 witness: a stub model returning the negative raw age -5 for
the single input image still yields a nonnegative age entry. -/
theorem predictAgeNonnegWitness :
    predict_age_gender (fun _ : Unit => ((0 : ℝ), -5)) [()] true 1 =
      Except.ok [(sigmoid 0, Real.sqrt ((-5 : ℝ) ^ 2))] ∧
    (0 : ℝ) ≤ Real.sqrt ((-5 : ℝ) ^ 2) :=
  ⟨rfl, predictAgeNonneg (fun _ : Unit => ((0 : ℝ), -5)) [()] true 1
    [(sigmoid 0, Real.sqrt ((-5 : ℝ) ^ 2))] rfl
    (sigmoid 0, Real.sqrt ((-5 : ℝ) ^ 2)) (by simp)⟩

/-- Claim C6: in a tensor returned by predict_age_gender, every gender
entry lies in the interval from 0 to 1 when probabilities are requested
(it is a sigmoid of the raw logit), and is exactly 0 or 1 when the
thresholded label is requested. -/
theorem predictGenderRange {α : Type} (model : α → ℝ × ℝ)
    (list_imgs : List α) (return_pr : Bool) (batch_size : Nat)
    (res : List (ℝ × ℝ))
    (h : predict_age_gender model list_imgs return_pr batch_size =
      Except.ok res) :
    ∀ r ∈ res,
      (return_pr = true → 0 ≤ r.1 ∧ r.1 ≤ 1) ∧
      (return_pr = false → r.1 = 0 ∨ r.1 = 1) := by
  simp only [predict_age_gender] at h
  set bs := if list_imgs.length < batch_size then list_imgs.length
    else batch_size with hbs
  split at h
  · cases h
  · injection h with h
    subst h
    intro r hr
    rw [List.mem_map] at hr
    obtain ⟨r0, hr0, rfl⟩ := hr
    rw [List.mem_flatten] at hr0
    obtain ⟨batch, hbatch, hr0⟩ := hr0
    rw [List.mem_map] at hbatch
    obtain ⟨k, _, rfl⟩ := hbatch
    have hch := predictBatch_fst model return_pr
      ((list_imgs.drop k).take _) r0 hr0
    refine ⟨fun ht => ?_, fun hf => hch.2 hf⟩
    obtain ⟨x, hx⟩ := hch.1 ht
    rw [hx]
    exact ⟨sigmoid_nonneg x, sigmoid_le_one x⟩

/-- Claim C6 witness: with probabilities requested, the single gender
entry is the sigmoid of the raw logit and lies between 0 and 1. -/
theorem predictGenderRangeWitness :
    predict_age_gender (fun _ : Unit => ((0 : ℝ), 0)) [()] true 1 =
      Except.ok [(sigmoid 0, Real.sqrt ((0 : ℝ) ^ 2))] ∧
    ((0 : ℝ) ≤ sigmoid 0 ∧ sigmoid 0 ≤ 1) :=
  ⟨rfl, (predictGenderRange (fun _ : Unit => ((0 : ℝ), 0)) [()] true 1
    [(sigmoid 0, Real.sqrt ((0 : ℝ) ^ 2))] rfl
    (sigmoid 0, Real.sqrt ((0 : ℝ) ^ 2)) (by simp)).1 rfl⟩





/-- Claim C9: test processes the checkpoints one-to-one (the result list has
one bundle per checkpoint, in order); each bundle carries the record updated
with every metric (MAE, MSE, MCC, accuracy) for each of the train,
validation and test splits aggregated as the arithmetic mean over the
n_runs repetitions, together with the n_runs per-run confusion matrices of
all three splits; the non-metric entries of the record are preserved. -/
theorem testAggregatesMeans (mcc acc : ConfusionMatrix ℚ → ℚ)
    (n_runs : Nat) (checkpoints : List Checkpoint) :
    (test mcc acc n_runs checkpoints).length = checkpoints.length ∧
    test mcc acc n_runs checkpoints = checkpoints.map (fun cp =>
      { dict :=
          { cp.dict with
            train_mae := some (npMean ((List.range n_runs).map
              (fun k => npMean (cp.runData k).train.mae_batches)))
            val_mae := some (npMean ((List.range n_runs).map
              (fun k => npMean (cp.runData k).val.mae_batches)))
            test_mae := some (npMean ((List.range n_runs).map
              (fun k => npMean (cp.runData k).tst.mae_batches)))
            train_mse := some (npMean ((List.range n_runs).map
              (fun k => npMean (cp.runData k).train.mse_batches)))
            val_mse := some (npMean ((List.range n_runs).map
              (fun k => npMean (cp.runData k).val.mse_batches)))
            test_mse := some (npMean ((List.range n_runs).map
              (fun k => npMean (cp.runData k).tst.mse_batches)))
            train_mcc := some (npMean ((List.range n_runs).map
              (fun k => mcc (cp.runData k).train.cm)))
            val_mcc := some (npMean ((List.range n_runs).map
              (fun k => mcc (cp.runData k).val.cm)))
            test_mcc := some (npMean ((List.range n_runs).map
              (fun k => mcc (cp.runData k).tst.cm)))
            train_acc := some (npMean ((List.range n_runs).map
              (fun k => acc (cp.runData k).train.cm)))
            val_acc := some (npMean ((List.range n_runs).map
              (fun k => acc (cp.runData k).val.cm)))
            test_acc := some (npMean ((List.range n_runs).map
              (fun k => acc (cp.runData k).tst.cm))) }
        train_cm := (List.range n_runs).map
          (fun k => (cp.runData k).train.cm)
        val_cm := (List.range n_runs).map (fun k => (cp.runData k).val.cm)
        test_cm := (List.range n_runs).map
          (fun k => (cp.runData k).tst.cm) }) ∧
    (test mcc acc n_runs checkpoints).map
        (fun b => (b.train_cm.length, b.val_cm.length, b.test_cm.length)) =
      checkpoints.map (fun _ => (n_runs, n_runs, n_runs)) := by
  refine ⟨by simp [test], ?_, ?_⟩
  · simp [test, testCheckpoint, Function.comp_def]
  · simp [test, testCheckpoint, Function.comp_def, List.map_const]
